import Mathlib

/-!
Verification of the one-link short-link redirection service.

The core under study consists of:
* `app/utils/device_detect.py` — the platform resolver (`detect_platform`,
  `get_device_info`);
* `app/utils/short_url.py` — the code generator and helpers
  (`generate_short_code`, `generate_short_url`, `hash_ip`, `validate_url`);
* `app/routers/redirect.py` — the redirect destination selection;
* `app/routers/projects.py` — the short-code collision-retry loop in
  `create_project`.

The Python `user_agents.parse` library call is modelled by an abstract
parameter `uaparse : String → ParsedUA` carrying exactly the fields the code
reads; `shortuuid.ShortUUID().random` and `hashlib.sha256` are modelled
faithfully to their documented behaviour (for SHA-256, by a full executable
implementation of the algorithm).
-/

namespace OneLink

/-- The fields of a parsed user agent that `device_detect.py` reads from the
result of `user_agents.parse`: `ua.device.family`, `ua.os.family`,
`ua.os.version_string`, `ua.browser.family`, `ua.browser.version_string`,
`ua.is_mobile`, `ua.is_tablet`, `ua.is_bot`. -/
structure ParsedUA where
  device_family : String
  os_family : String
  os_version_string : String
  browser_family : String
  browser_version_string : String
  mobileFlag : Bool
  tabletFlag : Bool
  botFlag : Bool
  deriving Repr, DecidableEq

/-- `detect_platform` from `app/utils/device_detect.py` (lines 9–37).
`uaparse` stands for the external `user_agents.parse`.  Python's
`if not user_agent_string` is the emptiness test on the string. -/
def detect_platform (uaparse : String → ParsedUA) (user_agent_string : String) : String :=
  if user_agent_string = "" then "other"
  else
    let user_agent := uaparse user_agent_string
    if user_agent.mobileFlag && user_agent.os_family == "iOS" then "ios"
    else if user_agent.os_family == "Android" then "android"
    else "other"

/-- A value of a Python dict used by `get_device_info`: a string or a bool. -/
inductive DVal where
  | s (v : String)
  | b (v : Bool)
  deriving Repr, DecidableEq

/-- Python's `x or d` on strings: the empty string is falsy. -/
def pyOrStr (x d : String) : String :=
  if x = "" then d else x

/-- `get_device_info` from `app/utils/device_detect.py` (lines 40–79),
returning the Python dict as an association list (key order as in the
source).  Note that the empty-input branch (lines 55–65) builds a dict with
no `browser_version` key, unlike the branch for non-empty input. -/
def get_device_info (uaparse : String → ParsedUA) (user_agent_string : String) :
    List (String × DVal) :=
  if user_agent_string = "" then
    [("platform", .s "other"),
     ("device", .s "Unknown"),
     ("os", .s "Unknown"),
     ("os_version", .s "Unknown"),
     ("browser", .s "Unknown"),
     ("is_mobile", .b false),
     ("is_tablet", .b false),
     ("is_bot", .b false)]
  else
    let user_agent := uaparse user_agent_string
    [("platform", .s (detect_platform uaparse user_agent_string)),
     ("device", .s (pyOrStr user_agent.device_family "Unknown")),
     ("os", .s (pyOrStr user_agent.os_family "Unknown")),
     ("os_version", .s (pyOrStr user_agent.os_version_string "Unknown")),
     ("browser", .s (pyOrStr user_agent.browser_family "Unknown")),
     ("browser_version", .s (pyOrStr user_agent.browser_version_string "Unknown")),
     ("is_mobile", .b user_agent.mobileFlag),
     ("is_tablet", .b user_agent.tabletFlag),
     ("is_bot", .b user_agent.botFlag)]

end OneLink

open OneLink

/-- C1: `detect_platform` returns `"other"` on the empty string; on a
non-empty string it returns `"ios"` exactly when the parsed OS family is
`"iOS"` and the mobile flag is set, `"android"` exactly when the parsed OS
family is `"Android"` (the mobile flag playing no role), and `"other"` in
every remaining case. -/
theorem C1_detect_platform_cases (uaparse : String → ParsedUA) (ua : String) :
    (ua = "" → detect_platform uaparse ua = "other") ∧
    (ua ≠ "" →
      (detect_platform uaparse ua = "ios" ↔
        ((uaparse ua).os_family = "iOS" ∧ (uaparse ua).mobileFlag = true)) ∧
      (detect_platform uaparse ua = "android" ↔ (uaparse ua).os_family = "Android") ∧
      (detect_platform uaparse ua = "other" ↔
        (¬((uaparse ua).os_family = "iOS" ∧ (uaparse ua).mobileFlag = true) ∧
          (uaparse ua).os_family ≠ "Android"))) := by
  constructor
  · intro h
    simp [detect_platform, h]
  · intro h
    simp only [detect_platform, if_neg h]
    set u := uaparse ua with hu
    by_cases hm : u.mobileFlag = true
    · by_cases hios : u.os_family = "iOS"
      · simp [hm, hios]
      · by_cases hand : u.os_family = "Android" <;> simp [hm, hios, hand]
    · have hm' : u.mobileFlag = false := by
        cases hfl : u.mobileFlag
        · rfl
        · exact absurd hfl hm
      by_cases hand : u.os_family = "Android" <;> simp [hm', hand]

/-- Witness for C1 at a concrete parser and user-agent string. -/
theorem C1_detect_platform_cases_witness :
    detect_platform (fun _ => ⟨"iPhone", "iOS", "14.6", "Mobile Safari", "14.6", true, false, false⟩)
      "Mozilla/5.0 (iPhone; CPU iPhone OS 14_6 like Mac OS X)" = "ios" :=
  ((C1_detect_platform_cases
      (fun _ => ⟨"iPhone", "iOS", "14.6", "Mobile Safari", "14.6", true, false, false⟩)
      "Mozilla/5.0 (iPhone; CPU iPhone OS 14_6 like Mac OS X)").2
    (by decide)).1.mpr ⟨rfl, rfl⟩

namespace OneLink

/-- A link record as the redirect handler reads it: the `Project` model of
`app/models.py` restricted to the three destination fields (`ios_url` and
`android_url` are non-nullable columns, `fallback_url` is nullable). -/
structure ProjectRec where
  ios_url : String
  android_url : String
  fallback_url : Option String
  deriving Repr, DecidableEq

/-- Python's `x or d` where `x` is an optional string: both `None` and the
empty string are falsy. -/
def pyOrOpt (x : Option String) (d : String) : String :=
  match x with
  | none => d
  | some s => if s = "" then d else s

/-- The destination selection of `redirect_to_store` in
`app/routers/redirect.py` (lines 77–84), identically repeated in
`get_redirect_info` (lines 122–128): `ios` → `project.ios_url`;
`android` → `project.android_url`; otherwise
`project.fallback_url or project.android_url`. -/
def select_redirect_url (project : ProjectRec) (platform : String) : String :=
  if platform = "ios" then project.ios_url
  else if platform = "android" then project.android_url
  else pyOrOpt project.fallback_url project.android_url

end OneLink

/-- C2: for a link record whose fallback URL, when present, is a non-empty
string (the data-model invariant for a stored well-formed URL), the redirect
destination is chosen by the three-way selection: `ios` → iOS URL,
`android` → Android URL, `other` → fallback URL if present, else Android
URL. -/
theorem C2_redirect_selection (p : ProjectRec)
    (h : ∀ f, p.fallback_url = some f → f ≠ "") :
    select_redirect_url p "ios" = p.ios_url ∧
    select_redirect_url p "android" = p.android_url ∧
    select_redirect_url p "other" = p.fallback_url.getD p.android_url := by
  refine ⟨by simp [select_redirect_url], by simp [select_redirect_url], ?_⟩
  cases hf : p.fallback_url with
  | none => simp [select_redirect_url, pyOrOpt, hf]
  | some f => simp [select_redirect_url, pyOrOpt, hf, h f hf]

/-- Witness for C2: a record with fallback `"C"` routes `other` to `"C"`;
the same record without fallback routes `other` to its Android URL `"B"`. -/
theorem C2_redirect_selection_witness :
    select_redirect_url ⟨"A", "B", some "C"⟩ "other" = "C" ∧
    select_redirect_url ⟨"A", "B", none⟩ "other" = "B" :=
  ⟨(C2_redirect_selection ⟨"A", "B", some "C"⟩
      (by intro f hf; injection hf with h; subst h; decide)).2.2,
   (C2_redirect_selection ⟨"A", "B", none⟩
      (by intro f hf; cases hf)).2.2⟩

/-- C9: a fallback URL that is present but equal to the empty string (falsy
in Python) is treated exactly as an absent fallback: an `other` request is
routed to the Android URL. -/
theorem C9_empty_fallback_routes_android (i a : String) :
    select_redirect_url ⟨i, a, some ""⟩ "other" = a := by
  simp [select_redirect_url, pyOrOpt]

/-- C4: the `platform` field of the dict built by `get_device_info` always
equals `detect_platform` on the same user-agent string, for every parser. -/
theorem C4_device_info_platform_consistent (uaparse : String → ParsedUA) (ua : String) :
    (get_device_info uaparse ua).lookup "platform" =
      some (.s (detect_platform uaparse ua)) := by
  by_cases h : ua = ""
  · simp [get_device_info, detect_platform, h, List.lookup]
  · simp [get_device_info, h, List.lookup]

/-- A concrete stand-in for the external user-agent parser, used to
instantiate closed statements (the empty-input branch never consults it). -/
def trivialParse : String → ParsedUA :=
  fun _ => ⟨"", "", "", "", "", false, false, false⟩

/-- Counterexample to C5: the dict returned by `get_device_info` on the
empty string has NO `browser_version` key at all — in particular its value
is not the string `"Unknown"` that the claim demands. -/
theorem C5_counterexample :
    (get_device_info trivialParse "").lookup "browser_version" = none ∧
    (get_device_info trivialParse "").lookup "browser_version" ≠ some (.s "Unknown") := by
  decide

/-- C5 as amended: `get_device_info` applied to the empty string returns —
for every parser, without consulting it — the default record with platform
`"other"`, device/OS/OS-version/browser families `"Unknown"`, and mobile,
tablet and bot flags `false`; the `browser_version` key of the non-empty
branch is absent from this record. -/
theorem C5_amended_empty_device_info (uaparse : String → ParsedUA) :
    get_device_info uaparse "" =
      [("platform", .s "other"),
       ("device", .s "Unknown"),
       ("os", .s "Unknown"),
       ("os_version", .s "Unknown"),
       ("browser", .s "Unknown"),
       ("is_mobile", .b false),
       ("is_tablet", .b false),
       ("is_bot", .b false)] := by
  simp [get_device_info]

namespace OneLink

/-- The short-code collision-retry loop of `create_project` in
`app/routers/projects.py` (lines 50–55):

    short_code = generate_short_code()
    while db.query(Project).filter(Project.short_code == short_code).first():
        short_code = generate_short_code()

`gen i` is the code produced by the `i`-th call to `generate_short_code`,
`taken` is membership of a code in the record store.  The Python loop has no
attempt counter and no exit other than finding a fresh code; `fuel` bounds
how many iterations we observe, with `none` meaning the loop is still
running after `fuel` generation attempts. -/
def collisionRetry (gen : Nat → String) (taken : String → Bool) :
    Nat → Nat → Option String
  | 0, _ => none
  | fuel + 1, i => if taken (gen i) then collisionRetry gen taken fuel (i + 1) else some (gen i)

/-- A generation sequence for concrete runs of the loop: the `i`-th
generated code is `"c<i>"`. -/
def cexGen : Nat → String := fun i => "c" ++ toString i

/-- A record store holding exactly the first ten generated codes. -/
def cexTaken : String → Bool := fun c =>
  ["c0", "c1", "c2", "c3", "c4", "c5", "c6", "c7", "c8", "c9"].contains c

end OneLink

/-- Counterexample to C3: with a store in which the first 10 generated codes
all collide, creation does not fail after 10 attempts with an internal
error — the loop simply performs an 11th generation attempt and succeeds
with the 11th code. -/
theorem C3_counterexample :
    collisionRetry cexGen cexTaken 12 0 = some "c10" := by
  decide

/-- C3 as amended: the collision-retry loop of `create_project` is
unbounded — after generating a code it rechecks the store and regenerates on
collision, with no maximum attempt count: if every code in the store
collides the loop never terminates (it yields no result after any number of
iterations, rather than failing with an internal error after 10), and it
stops exactly at the first non-colliding code. -/
theorem C3_amended_unbounded_retry (gen : Nat → String) (taken : String → Bool) :
    (∀ fuel i, (∀ c, taken c = true) → collisionRetry gen taken fuel i = none) ∧
    (∀ fuel i, taken (gen i) = false → collisionRetry gen taken (fuel + 1) i = some (gen i)) := by
  constructor
  · intro fuel
    induction fuel with
    | zero => intro i _; rfl
    | succ n ih =>
        intro i hall
        simp only [collisionRetry, hall (gen i), if_true]
        exact ih (i + 1) hall
  · intro fuel i hfree
    simp [collisionRetry, hfree]

/-- Witness for C3 as amended: with an all-colliding store the loop is still
running after 100 attempts; with a store where the first code is fresh it
returns that code at once. -/
theorem C3_amended_unbounded_retry_witness :
    collisionRetry cexGen (fun _ => true) 100 0 = none ∧
    collisionRetry cexGen (fun _ => false) 1 0 = some "c0" :=
  ⟨(C3_amended_unbounded_retry cexGen (fun _ => true)).1 100 0 (fun _ => rfl),
   (C3_amended_unbounded_retry cexGen (fun _ => false)).2 0 0 rfl⟩

namespace OneLink

/-- Python's `str.startswith` on the relevant arguments:
`s.startswith(p)` holds when the characters of `p` are an initial segment
of the characters of `s`. -/
def pyStartswith (s p : String) : Bool :=
  p.data.isPrefixOf s.data

/-- `validate_url` from `app/utils/short_url.py` (lines 64–79):
`False` for a falsy (empty) string, otherwise
`any(url.startswith(prefix) for prefix in ['http://', 'https://'])`. -/
def validate_url (url : String) : Bool :=
  if url = "" then false
  else ["http://", "https://"].any (fun p => pyStartswith url p)

end OneLink

/-- C10: `validate_url` accepts exactly the strings that begin with
`"http://"` or `"https://"` (so the empty string is rejected, and the bare
scheme `"http://"` on its own is accepted — no further well-formedness is
checked). -/
theorem C10_validate_url_iff (url : String) :
    (validate_url url = true ↔
      (pyStartswith url "http://" = true ∨ pyStartswith url "https://" = true)) ∧
    validate_url "" = false ∧
    validate_url "http://" = true := by
  refine ⟨?_, by decide, by decide⟩
  by_cases h : url = ""
  · subst h
    constructor
    · intro hc; cases hc
    · intro hc
      rcases hc with hc | hc <;> cases hc
  · simp [validate_url, h, List.any]

namespace OneLink

/-- Python's `s.rstrip('/')`: remove every trailing `'/'` character. -/
def pyRstripSlash (s : String) : String :=
  ⟨(s.data.reverse.dropWhile (fun c => c == '/')).reverse⟩

/-- `generate_short_url` from `app/utils/short_url.py` (lines 26–43):
`base_url = base_url.rstrip('/')` followed by `f"{base_url}/{short_code}"`. -/
def generate_short_url (base_url short_code : String) : String :=
  pyRstripSlash base_url ++ "/" ++ short_code

/-- Whether a string ends in a `'/'` character. -/
def hasTrailingSlash (s : String) : Bool :=
  s.data.getLast? == some '/'

theorem pyRstripSlash_eq_rdropWhile (s : String) :
    pyRstripSlash s = ⟨s.data.rdropWhile (fun c => c == '/')⟩ := rfl

theorem pyRstripSlash_of_no_trailing {s : String} (h : hasTrailingSlash s = false) :
    pyRstripSlash s = s := by
  rw [pyRstripSlash_eq_rdropWhile]
  have hd : s.data.rdropWhile (fun c => c == '/') = s.data := by
    rw [List.rdropWhile_eq_self_iff]
    intro hl hp
    have hlast : s.data.getLast? = some (s.data.getLast hl) :=
      List.getLast?_eq_getLast s.data hl
    have : s.data.getLast hl = '/' := by
      simpa using hp
    rw [this] at hlast
    simp [hasTrailingSlash, hlast] at h
  rw [hd]

theorem pyRstripSlash_append_slash (s : String) :
    pyRstripSlash (s ++ "/") = pyRstripSlash s := by
  obtain ⟨l⟩ := s
  show (⟨((l ++ ['/']).reverse.dropWhile (fun c => c == '/')).reverse⟩ : String) = _
  rw [show ((l ++ ['/']).reverse) = '/' :: l.reverse by simp]
  rfl

end OneLink

/-- C7: `generate_short_url` joins the base URL, with its trailing slashes
stripped, to the code with a single `'/'`: a base without a trailing slash
is used verbatim (so its scheme survives and no `"//"` appears at the
join), appending a trailing slash to the base never changes the result, and
in particular `generate_short_url "http://host/" "abc123"` is
`"http://host/abc123"`. -/
theorem C7_generate_short_url (base code : String) :
    (hasTrailingSlash base = false → generate_short_url base code = base ++ "/" ++ code) ∧
    generate_short_url (base ++ "/") code = generate_short_url base code ∧
    generate_short_url "http://host/" "abc123" = "http://host/abc123" := by
  refine ⟨fun h => ?_, ?_, by decide⟩
  · rw [generate_short_url, pyRstripSlash_of_no_trailing h]
  · rw [generate_short_url, generate_short_url, pyRstripSlash_append_slash]

/-- Witness for C7: on a base without a trailing slash the join inserts
exactly one `'/'`. -/
theorem C7_generate_short_url_witness :
    generate_short_url "https://onelink.app" "xK9mP2" = "https://onelink.app/xK9mP2" :=
  (C7_generate_short_url "https://onelink.app" "xK9mP2").1 (by decide)

namespace OneLink

/-- The default alphabet of the `shortuuid` library: the 57 alphanumeric
characters with the visually ambiguous `l`, `I`, `O`, `0`, `1` removed. -/
def shortuuidAlphabet : List Char :=
  "23456789ABCDEFGHJKLMNPQRSTUVWXYZabcdefghijkmnopqrstuvwxyz".data

/-- Models `shortuuid.ShortUUID().random(length=length)`: a string of
`length` characters drawn independently from the instance alphabet; the
randomness source is abstracted as `rand`, with draw `i` picking the
character at index `rand i mod 57`. -/
def shortuuidRandom (rand : Nat → Nat) (length : Nat) : String :=
  ⟨(List.range length).map
    (fun i => shortuuidAlphabet.getD (rand i % shortuuidAlphabet.length) '2')⟩

/-- `generate_short_code` from `app/utils/short_url.py` (lines 9–23):
`shortuuid.ShortUUID().random(length=length)`, with default length 6. -/
def generate_short_code (rand : Nat → Nat) (length : Nat) : String :=
  shortuuidRandom rand length

end OneLink

/-- Elements obtained by `getD` at an index below the length are members. -/
theorem getD_mem_of_lt {l : List Char} {n : Nat} (d : Char) (h : n < l.length) :
    l.getD n d ∈ l := by
  rw [List.getD_eq_getElem l d h]
  exact List.getElem_mem h

/-- Every character of the shortuuid alphabet is alphanumeric. -/
theorem shortuuidAlphabet_alphanum : ∀ c ∈ shortuuidAlphabet, c.isAlphanum = true := by
  decide

/-- C6: for every randomness source and every length, `generate_short_code`
returns a string of exactly that many characters, each drawn from the
57-character case-sensitive alphanumeric (hence URL-safe) shortuuid
alphabet. -/
theorem C6_generate_short_code (rand : Nat → Nat) (length : Nat) :
    (generate_short_code rand length).length = length ∧
    ∀ c ∈ (generate_short_code rand length).data,
      c ∈ shortuuidAlphabet ∧ c.isAlphanum = true := by
  constructor
  · show ((List.range length).map _).length = length
    rw [List.length_map, List.length_range]
  · intro c hc
    have hc' : c ∈ (List.range length).map
        (fun i => shortuuidAlphabet.getD (rand i % shortuuidAlphabet.length) '2') := hc
    obtain ⟨i, _, hi⟩ := List.exists_of_mem_map hc'
    have hlt : rand i % shortuuidAlphabet.length < shortuuidAlphabet.length :=
      Nat.mod_lt _ (by decide)
    have hmem : c ∈ shortuuidAlphabet := hi ▸ getD_mem_of_lt '2' hlt
    exact ⟨hmem, shortuuidAlphabet_alphanum c hmem⟩

namespace OneLink

/-- The running state of SHA-256: the eight 32-bit working variables. -/
structure Hash8 where
  a : Nat
  b : Nat
  c : Nat
  d : Nat
  e : Nat
  f : Nat
  g : Nat
  h : Nat
  deriving Repr, DecidableEq

/-- Addition modulo 2^32. -/
def add32 (x y : Nat) : Nat := (x + y) % 4294967296

/-- Right rotation of a 32-bit word (`x < 2^32`, `k ≤ 32`). -/
def rotr32 (k x : Nat) : Nat := x / 2 ^ k + x % 2 ^ k * 2 ^ (32 - k)

/-- Logical right shift of a 32-bit word. -/
def shr32 (k x : Nat) : Nat := x / 2 ^ k

def bigSigma0 (x : Nat) : Nat := rotr32 2 x ^^^ rotr32 13 x ^^^ rotr32 22 x

def bigSigma1 (x : Nat) : Nat := rotr32 6 x ^^^ rotr32 11 x ^^^ rotr32 25 x

def smallSigma0 (x : Nat) : Nat := rotr32 7 x ^^^ rotr32 18 x ^^^ shr32 3 x

def smallSigma1 (x : Nat) : Nat := rotr32 17 x ^^^ rotr32 19 x ^^^ shr32 10 x

/-- The SHA-256 choice function; complement is xor with the 32-bit mask. -/
def ch32 (e f g : Nat) : Nat := (e &&& f) ^^^ ((e ^^^ 4294967295) &&& g)

def maj32 (a b c : Nat) : Nat := (a &&& b) ^^^ (a &&& c) ^^^ (b &&& c)

/-- The 64 SHA-256 round constants (FIPS 180-4). -/
def sha256K : List Nat :=
  [1116352408, 1899447441, 3049323471, 3921009573, 961987163, 1508970993,
   2453635748, 2870763221, 3624381080, 310598401, 607225278, 1426881987,
   1925078388, 2162078206, 2614888103, 3248222580, 3835390401, 4022224774,
   264347078, 604807628, 770255983, 1249150122, 1555081692, 1996064986,
   2554220882, 2821834349, 2952996808, 3210313671, 3336571891, 3584528711,
   113926993, 338241895, 666307205, 773529912, 1294757372, 1396182291,
   1695183700, 1986661051, 2177026350, 2456956037, 2730485921, 2820302411,
   3259730800, 3345764771, 3516065817, 3600352804, 4094571909, 275423344,
   430227734, 506948616, 659060556, 883997877, 958139571, 1322822218,
   1537002063, 1747873779, 1955562222, 2024104815, 2227730452, 2361852424,
   2428436474, 2756734187, 3204031479, 3329325298]

/-- The SHA-256 initial hash value (FIPS 180-4). -/
def sha256H0 : Hash8 :=
  ⟨1779033703, 3144134277, 1013904242, 2773480762, 1359893119, 2600822924, 528734635, 1541459225⟩

/-- One SHA-256 round. -/
def sha256Round (st : Hash8) (ki wi : Nat) : Hash8 :=
  let t1 := (st.h + bigSigma1 st.e + ch32 st.e st.f st.g + ki + wi) % 4294967296
  let t2 := (bigSigma0 st.a + maj32 st.a st.b st.c) % 4294967296
  ⟨(t1 + t2) % 4294967296, st.a, st.b, st.c, (st.d + t1) % 4294967296, st.e, st.f, st.g⟩

/-- Message-schedule expansion of a 16-word block to 64 words. -/
def sha256Schedule (block : List Nat) : List Nat :=
  (List.range 48).foldl
    (fun ws _ =>
      let n := ws.length
      ws ++ [(smallSigma1 (ws.getD (n - 2) 0) + ws.getD (n - 7) 0 +
              smallSigma0 (ws.getD (n - 15) 0) + ws.getD (n - 16) 0) % 4294967296])
    block

/-- The SHA-256 compression function on one 16-word block. -/
def sha256Compress (st : Hash8) (block : List Nat) : Hash8 :=
  let w := sha256Schedule block
  let fin := (List.range 64).foldl (fun s i => sha256Round s (sha256K.getD i 0) (w.getD i 0)) st
  ⟨add32 st.a fin.a, add32 st.b fin.b, add32 st.c fin.c, add32 st.d fin.d,
   add32 st.e fin.e, add32 st.f fin.f, add32 st.g fin.g, add32 st.h fin.h⟩

/-- The `n`-byte big-endian encoding of `x`. -/
def bytesBE (n x : Nat) : List Nat := (List.range n).map (fun i => x / 2 ^ (8 * (n - 1 - i)) % 256)

/-- SHA-256 padding: `0x80`, zeros to 56 mod 64, then the 8-byte bit length. -/
def sha256Pad (msg : List Nat) : List Nat :=
  msg ++ [128] ++ List.replicate ((119 - msg.length % 64) % 64) 0 ++ bytesBE 8 (msg.length * 8)

def chunkGo (n : Nat) : Nat → List Nat → List (List Nat)
  | 0, _ => []
  | _, [] => []
  | fuel + 1, l => l.take n :: chunkGo n fuel (l.drop n)

/-- Split a list into consecutive chunks of `n` elements. -/
def chunkList (n : Nat) (l : List Nat) : List (List Nat) := chunkGo n l.length l

/-- Big-endian assembly of a word from its bytes. -/
def bytesToWord (bs : List Nat) : Nat := bs.foldl (fun acc b => acc * 256 + b) 0

/-- The SHA-256 digest (as eight 32-bit words) of a byte sequence. -/
def sha256Digest (msg : List Nat) : Hash8 :=
  ((chunkList 64 (sha256Pad msg)).map (fun block => (chunkList 4 block).map bytesToWord)).foldl
    sha256Compress sha256H0

/-- The sixteen lowercase hexadecimal digits. -/
def hexDigitList : List Char := "0123456789abcdef".data

def hexChar (n : Nat) : Char := hexDigitList.getD (n % 16) '0'

/-- The 8 hex characters of a 32-bit word, most significant nibble first. -/
def wordToHexL (w : Nat) : List Char := (List.range 8).map (fun i => hexChar (w / 16 ^ (7 - i)))

/-- Python's `.hexdigest()`: the 64 lowercase hex characters of the state. -/
def hexDigest (st : Hash8) : String :=
  ⟨wordToHexL st.a ++ wordToHexL st.b ++ wordToHexL st.c ++ wordToHexL st.d ++
   wordToHexL st.e ++ wordToHexL st.f ++ wordToHexL st.g ++ wordToHexL st.h⟩

/-- The UTF-8 encoding of one character (Python's `str.encode()` per char). -/
def utf8EncodeChar (c : Char) : List Nat :=
  let n := c.toNat
  if n < 128 then [n]
  else if n < 2048 then [192 + n / 64, 128 + n % 64]
  else if n < 65536 then [224 + n / 4096, 128 + n / 64 % 64, 128 + n % 64]
  else [240 + n / 262144, 128 + n / 4096 % 64, 128 + n / 64 % 64, 128 + n % 64]

/-- Python's `str.encode()`: the UTF-8 bytes of a string. -/
def strToUtf8 (s : String) : List Nat := (s.data.map utf8EncodeChar).flatten

/-- `hash_ip` from `app/utils/short_url.py` (lines 46–61):
`hashlib.sha256(ip_address.encode()).hexdigest()`. -/
def hash_ip (ip_address : String) : String := hexDigest (sha256Digest (strToUtf8 ip_address))

end OneLink

set_option maxRecDepth 100000 in
/-- The SHA-256 model agrees with FIPS 180-4 on the empty message. -/
theorem hash_ip_fips_vector_empty :
    hash_ip "" = "e3b0c44298fc1c149afbf4c8996fb92427ae41e4649b934ca495991b7852b855" := by
  rfl

set_option maxRecDepth 100000 in
/-- The SHA-256 model on a concrete dotted-quad IP string. -/
theorem hash_ip_vector_ip :
    hash_ip "192.168.1.1" =
      "c5eb5a4cc76a5cdb16e79864b9ccd26c3553f0c396d0a21bafb7be71c1efcd8c" := by
  rfl

theorem wordToHexL_length (w : Nat) : (wordToHexL w).length = 8 := by
  simp [wordToHexL]

theorem mem_wordToHexL {c : Char} {w : Nat} (h : c ∈ wordToHexL w) : c ∈ hexDigitList := by
  obtain ⟨i, _, hi⟩ := List.exists_of_mem_map h
  have hlt : (w / 16 ^ (7 - i)) % 16 < hexDigitList.length := by
    exact Nat.mod_lt _ (by decide)
  exact hi ▸ getD_mem_of_lt '0' hlt

/-- C8: `hash_ip` is total and deterministic — equal inputs give equal
digests — and for every input string (well-formed IP address or not) its
result is a string of exactly 64 characters, each a lowercase hexadecimal
digit. -/
theorem C8_hash_ip_hex_digest (ip : String) :
    (hash_ip ip).length = 64 ∧
    (∀ c ∈ (hash_ip ip).data, c ∈ hexDigitList) ∧
    (∀ other : String, other = ip → hash_ip other = hash_ip ip) := by
  refine ⟨?_, ?_, fun other h => h ▸ rfl⟩
  · show (wordToHexL _ ++ wordToHexL _ ++ wordToHexL _ ++ wordToHexL _ ++
      wordToHexL _ ++ wordToHexL _ ++ wordToHexL _ ++ wordToHexL _).length = 64
    simp [List.length_append, wordToHexL_length]
  · intro c hc
    have hc' : c ∈ wordToHexL _ ++ wordToHexL _ ++ wordToHexL _ ++ wordToHexL _ ++
        wordToHexL _ ++ wordToHexL _ ++ wordToHexL _ ++ wordToHexL _ := hc
    simp only [List.mem_append] at hc'
    rcases hc' with ((((((h | h) | h) | h) | h) | h) | h) | h <;> exact mem_wordToHexL h

/-- Witness for C8 at a concrete IP string, discharging the determinism
hypothesis. -/
theorem C8_hash_ip_hex_digest_witness :
    (hash_ip "10.0.0.1").length = 64 ∧ hash_ip "10.0.0.1" = hash_ip "10.0.0.1" :=
  ⟨(C8_hash_ip_hex_digest "10.0.0.1").1,
   (C8_hash_ip_hex_digest "10.0.0.1").2.2 "10.0.0.1" rfl⟩
